import Mathlib

/-!
Shallow embedding of the fastws repository (`src/fastws/`), covering the
routing table (`routing.py`), the dispatch engine (`broker.py`) and the
connection/session layer (`application.py`), together with theorems settling
the claims C1..C10 about the natural-language specification.

Conventions of the embedding:
* Python machine behaviour that matters to the claims is made explicit:
  a raised exception is an `Except.error` carrying a `PyErr`; Python `None`
  is `Val.none`; a Python `dict` used as a keyed registry is an association
  list whose lookup mirrors `dict` lookup.
* Handlers are opaque callables: a `HandlerMeta` records exactly what
  `Operation.__init__` extracts from a handler by reflection (its parameter
  list, whether the declared return annotation is present, and the callable
  itself, modelled as a Lean function that may raise).
* Informational metadata (`name`, `tags`, `summary`, `description`) is not
  modelled: it is never read by routing, dispatch, broadcast or the session
  loop, which are the subjects of the claims.
-/

namespace FastWS

/-- `MethodT = Literal["SEND", "RECEIVE"]` (routing.py line 9). -/
inductive Method where
  | SEND
  | RECEIVE
deriving DecidableEq, Repr

/-- Opaque runtime values: Python `None` and everything else represented by
its serialised form.  Payloads and handler results are `Val`s; the claims
never inspect payload structure, only whether and where values flow. -/
inductive Val where
  | none
  | str (s : String)
deriving DecidableEq, Repr

/-- The Python exceptions that the modelled code can raise.
* `duplicateOperation` is the `AssertionError` raised by the two asserts in
  `OperationRouter.add_route` (routing.py lines 131-136, message
  "handler with operation ... already added"); the spec's error taxonomy
  names this failure `DuplicateOperation`.
* `assertionReplyRequired` is the `AssertionError` raised by
  `Operation.__init__` (routing.py lines 65-68, message
  "Send operations with a response model defined must include a reply").
* `attributeError a` is the `AttributeError` raised when an attribute named
  `a` is read from an object that never assigned it.
* `runtimeErrorMissingParam k` is the `RuntimeError` raised by
  `Operation.convert_params` (routing.py line 97) for a missing context value.
* `validationError` is pydantic's `ValidationError`.
* `noMatchingOperation` is `routing.NoMatchingOperation`.
* `deliveryFailure` stands for the exception group propagated out of a
  failed `asyncio.TaskGroup` (a dead transport during `broadcast`).
* `timeoutError` is `TimeoutError` from a fired `asyncio.timeout`. -/
inductive PyErr where
  | duplicateOperation
  | assertionReplyRequired
  | attributeError (attr : String)
  | runtimeErrorMissingParam (k : String)
  | validationError
  | noMatchingOperation
  | deliveryFailure
  | timeoutError
deriving DecidableEq, Repr

/-- The wire envelope `Message` (routing.py lines 14-23): a `type` string and
an optional payload.  `payload = Option.none` covers both an absent key and a
JSON null.  Replies built from the `_Msg` (payload-less) model dump with no
payload key, which this `Option.none` also represents. -/
structure Message where
  type : String
  payload : Option Val := Option.none
deriving DecidableEq, Repr

/-- Projection of an `Except` to the exception it raised, if any. -/
def errOf {α : Type} : Except PyErr α → Option PyErr
  | .error e => some e
  | .ok _ => Option.none

/-- One declared handler parameter, as `Operation.__init__` sees it through
`get_typed_signature`: its name, whether its annotation is a pydantic
`BaseModel` subclass, and (for payload parameters) the model's validator
`annotation.model_validate`, which may raise `ValidationError`. -/
structure Param where
  name : String
  isModelAnnot : Bool
  validate : Option Val → Except PyErr Val

/-- What `Operation.__init__` extracts from the handler callable by
reflection: the ordered parameter list (`get_typed_signature`), the declared
return annotation if any (`get_typed_return_annotation`; `Option.none` when the
handler has no return annotation), and the callable itself.  `run` is the
handler invocation performed by `run_handler_function` (broker.py lines
16-24); it receives the bound arguments and may itself raise. -/
structure HandlerMeta where
  params : List Param
  responseModel : Option String
  run : List (String × Val) → Except PyErr Val

/-- A `_Msg[lit]` / `_MsgWithPayload[lit, model]` class object
(routing.py lines 70-80): the `type` literal it was specialised with and
whether it carries a `payload` field.  Note that `_Msg.type` is annotated
`EventTypeT | str` (routing.py line 15), so `model_validate` accepts any
string for `type`: the literal imposes no constraint on validation. -/
structure MsgDescriptor where
  litType : String
  withPayload : Bool
deriving DecidableEq, Repr

/-- `model_validate` on a `_Msg`/`_MsgWithPayload` class, applied to the dict
with keys `type` and `payload` that broker.py builds: any string is accepted
as `type` (the `EventTypeT | str` union), a `_Msg` ignores the extra
`payload` key, and a `_MsgWithPayload` keeps the payload value. -/
def MsgDescriptor.modelValidate (d : MsgDescriptor) (t : String) (result : Val) : Message :=
  { type := t, payload := if d.withPayload then some result else Option.none }

/-- One registered route: the fields that `Operation.__init__`
(routing.py lines 40-80) assigns on `self` and that routing, dispatch or the
docs module read.  `reply_operation` and the two message descriptors are
computed by `Operation.init` below. -/
structure Operation where
  operation : String
  method : Method
  hmeta : HandlerMeta
  reply_operation : Option String
  payloadDescr : MsgDescriptor
  replyPayloadDescr : MsgDescriptor

/-- `Operation.__init__` (routing.py lines 40-80), restricted to the fields
the claims depend on:
* `self.reply_operation = reply_operation if self.method == "SEND" else self.operation`;
* the assert: a SEND operation with a declared return annotation must supply
  a reply id, else `AssertionError`;
* `self.payload`: `_Msg[op]`, upgraded to `_MsgWithPayload[op, ann]` when a
  parameter named `payload` is declared;
* `self.reply_payload`: `_Msg[reply or op]`, upgraded to
  `_MsgWithPayload[reply or op, response_model]` when a return annotation is
  declared. -/
def Operation.init (operation : String) (h : HandlerMeta) (method : Method)
    (reply_operation : Option String) : Except PyErr Operation :=
  let reply_op := if method = Method.SEND then reply_operation else some operation
  if method = Method.SEND ∧ h.responseModel ≠ Option.none ∧ reply_op = Option.none then
    .error .assertionReplyRequired
  else
    .ok
      { operation := operation
        method := method
        hmeta := h
        reply_operation := reply_op
        payloadDescr :=
          { litType := operation
            withPayload := h.params.any (fun p => p.name = "payload" ∧ p.isModelAnnot) }
        replyPayloadDescr :=
          { litType := reply_op.getD operation
            withPayload := h.responseModel ≠ Option.none } }

/-- Python attribute lookup on an `Operation` instance, restricted to the
message-descriptor attributes.  `Operation.__init__` assigns `self.payload`
and `self.reply_payload` (routing.py lines 73-80) and no other attribute of
this kind; reading any other name — in particular the `response_payload`
attribute that broker.py line 128 and docs.py lines 32-42 read — raises
`AttributeError`, which the lookup models by returning `Option.none`. -/
def Operation.getMsgAttr (op : Operation) (attr : String) : Option MsgDescriptor :=
  if attr = "payload" then some op.payloadDescr
  else if attr = "reply_payload" then some op.replyPayloadDescr
  else Option.none

/-- `Operation.matches` (routing.py lines 82-83): full-string equality on the
operation id plus equality of direction. -/
def Operation.matchesOp (op : Operation) (operation : String) (method : Method) : Bool :=
  op.operation = operation ∧ op.method = method

/-- `OperationRouter` (routing.py lines 104-114): a prefix string and the
ordered list of registered routes. -/
structure OperationRouter where
  prefixStr : String := ""
  routes : List Operation := []

/-- The `existing_operations` list built by `OperationRouter.add_route`
(routing.py lines 128-130): every registered route's `operation` followed by
every non-`None` `reply_operation`. -/
def OperationRouter.existingOps (r : OperationRouter) : List String :=
  r.routes.map (fun rt => rt.operation)
    ++ r.routes.filterMap (fun rt => rt.reply_operation)

/-- `OperationRouter.add_route` (routing.py lines 116-150).
The two asserts reject the new `operation`, and the new `reply_operation`
when supplied (`None not in existing_operations` is vacuously fine), if
either already occurs among `existing_operations`.  Both asserts run before
anything is appended, so a raised `duplicateOperation` leaves the table
exactly as it was.  Only then is the `Operation` constructed (which may
itself raise the reply-required assert) and appended. -/
def OperationRouter.addRoute (r : OperationRouter) (operation : String)
    (h : HandlerMeta) (method : Method) (reply_operation : Option String) :
    Except PyErr OperationRouter :=
  let replyDup : Bool :=
    match reply_operation with
    | some ro => decide (ro ∈ r.existingOps)
    | Option.none => false
  if operation ∈ r.existingOps then
    .error .duplicateOperation
  else if replyDup then
    .error .duplicateOperation
  else
    match Operation.init operation h method reply_operation with
    | .error e => .error e
    | .ok route => .ok { r with routes := r.routes ++ [route] }

/-- `OperationRouter.include_router` (routing.py lines 152-167): every route
of the sub-router is re-registered into `self` under the operation id
`prefix + router.prefix + route.operation`, forwarding the handler, method
and metadata.  Note the source forwards no `reply_operation` argument, so
`add_route` receives its default `None` for every merged route. -/
def OperationRouter.includeRouter (r : OperationRouter) (router : OperationRouter)
    (prefixArg : String) : Except PyErr OperationRouter :=
  router.routes.foldlM
    (fun acc route =>
      acc.addRoute (prefixArg ++ router.prefixStr ++ route.operation)
        route.hmeta route.method Option.none)
    r

/-- Lookup in the keyword-argument dict passed to dispatch (`params.get(k)` /
`k not in params` in routing.py lines 96-98). -/
def ctxGet (ctx : List (String × Val)) (k : String) : Option Val :=
  match ctx with
  | [] => Option.none
  | (k', v) :: rest => if k' = k then some v else ctxGet rest k

/-- `Operation.convert_params` (routing.py lines 85-101): for each declared
parameter, a parameter named `payload` whose annotation is a `BaseModel`
subclass is bound to `annotation.model_validate(message.payload)` (which may
raise `ValidationError`); every other parameter is looked up by name in the
call's keyword context, raising `RuntimeError` when absent.  The final
re-check that the converted keys equal the declared keys (lines 99-100) is
redundant — the converted mapping is built from exactly the declared keys —
and is not modelled. -/
def Operation.convertParams (op : Operation) (message : Message)
    (ctx : List (String × Val)) : Except PyErr (List (String × Val)) :=
  op.hmeta.params.mapM (fun p =>
    if p.name = "payload" ∧ p.isModelAnnot then
      (p.validate message.payload).map (fun v => (p.name, v))
    else
      match ctxGet ctx p.name with
      | Option.none => .error (.runtimeErrorMissingParam p.name)
      | some v => .ok (p.name, v))

/-- `Broker._match_route` (broker.py lines 110-114): first route of the table
matching `(operation, method)` exactly, else `NoMatchingOperation`. -/
def matchRoute (r : OperationRouter) (operation : String) (method : Method) :
    Except PyErr Operation :=
  match r.routes.find? (fun rt => rt.matchesOp operation method) with
  | some rt => .ok rt
  | Option.none => .error .noMatchingOperation

/-- `Broker.__call__` (broker.py lines 116-130), the dispatch engine.  The
second component of the result is the invocation log: the operation ids of
the handlers that were actually invoked (`run_handler_function` calls).
Control flow of the source:
1. `_match_route(message.type, method)` — may raise `NoMatchingOperation`;
2. `route.convert_params(message, params)` — may raise;
3. `run_handler_function(route.handler, values)` — the handler runs;
4. `route.response_payload.model_validate({"type": message.type, "payload": result})`
   — an attribute read of `response_payload` followed, were it to exist, by a
   validation of the dict whose `type` key is the *incoming* `message.type`.
   `Operation` assigns `reply_payload`, not `response_payload`, so step 4
   raises `AttributeError` (see `Operation.getMsgAttr`). -/
def brokerCall (r : OperationRouter) (message : Message) (method : Method)
    (ctx : List (String × Val)) : Except PyErr (Option Message) × List String :=
  match matchRoute r message.type method with
  | .error e => (.error e, [])
  | .ok route =>
    match route.convertParams message ctx with
    | .error e => (.error e, [])
    | .ok values =>
      match route.hmeta.run values with
      | .error e => (.error e, [route.operation])
      | .ok result =>
        (match route.getMsgAttr "response_payload" with
         | Option.none => .error (.attributeError "response_payload")
         | some d => .ok (some (d.modelValidate message.type result)),
         [route.operation])

/-! ## Connection layer (`application.py`) -/

/-- A connected client (`Client`, application.py lines 15-34): its unique id
(`uuid4().hex`), its topic-subscription set (a Python `set`, modelled as a
`Finset`), and an abstraction of its transport: `sendOk` is true when
`ws.send_text` succeeds and false when the transport is dead and
`Client.send` raises. -/
structure Client where
  uid : String
  topics : Finset String := ∅
  sendOk : Bool := true
deriving DecidableEq

/-- `Client.subscribe` (application.py lines 24-26):
`if topic not in self.topics: self.topics.add(topic)`. -/
def Client.subscribe (c : Client) (topic : String) : Client :=
  if topic ∈ c.topics then c else { c with topics := insert topic c.topics }

/-- `Client.unsubscribe` (application.py lines 28-30):
`if topic in self.topics: self.topics.remove(topic)`.  The membership guard
makes the `set.remove` `KeyError` unreachable, so the operation is total. -/
def Client.unsubscribe (c : Client) (topic : String) : Client :=
  if topic ∈ c.topics then { c with topics := c.topics.erase topic } else c

/-- `FastWS.broadcast` (application.py lines 109-117): the registry values
are filtered to the clients whose `topics` contain the topic, and one
`client.send` task per selected client is created inside an
`asyncio.TaskGroup`.  The `TaskGroup` awaits every task before the `async
with` block exits, and when a task raises it cancels the still-pending
sibling tasks and re-raises the failure out of `broadcast` as an exception
group.  `deliverSeq` models the group's execution on the admissible schedule
in which the created send tasks complete in creation order: every send
before the first dead transport is delivered, the failing send delivers
nothing, and the remaining sends are cancelled undelivered. -/
def deliverSeq : List Client → List String × Bool
  | [] => ([], true)
  | c :: rest =>
    if c.sendOk then
      let r := deliverSeq rest
      (c.uid :: r.1, r.2)
    else ([], false)

/-- `broadcast(topic, message)` over the registry snapshot `reg` (in
registry-iteration order): returns the uids actually delivered to and the
call's outcome — `deliveryFailure` (the propagated exception group) as soon
as any selected client's transport is dead. -/
def broadcastModel (reg : List Client) (topic : String) :
    List String × Except PyErr Unit :=
  let selected := reg.filter (fun c => decide (topic ∈ c.topics))
  let r := deliverSeq selected
  (r.1, if r.2 then .ok () else .error .deliveryFailure)

/-- Outcome of `_auth` (application.py lines 90-95) as seen by `manage`:
the authentication collaborator returned `True`, returned `False`, or
raised. -/
inductive AuthOutcome where
  | granted
  | denied
  | raised
deriving DecidableEq, Repr

/-- How the body of the `manage` generator's `yield` resumes (application.py
lines 102-107): the session ended normally, an `Exception` was thrown into
the generator (caught by `except Exception`), or a `BaseException` such as a
cancellation/`GeneratorExit` was thrown in (not caught by `except
Exception`, but the `finally` block still runs). -/
inductive BodyOutcome where
  | normal
  | appError
  | cancelled
deriving DecidableEq, Repr

/-- `dict` insertion `self.connections[client.uid] = client`
(`FastWS._connect`, application.py lines 81-83): extensionally, the mapping
now binds `client.uid` and is otherwise unchanged. -/
def connectReg (reg : List Client) (c : Client) : List Client :=
  c :: reg.filter (fun x => x.uid ≠ c.uid)

/-- `self.connections.pop(uid, None)` (`FastWS._disconnect`, application.py
lines 85-88): the mapping no longer binds `uid`. -/
def disconnectReg (reg : List Client) (uid : String) : List Client :=
  reg.filter (fun x => x.uid ≠ uid)

/-- Result of one run of the `manage` dependency: the final registry,
whether a `Client` was ever created and registered, and whether an
exception propagated out of `manage` to its caller. -/
structure ManageResult where
  registry : List Client
  created : Bool
  propagated : Bool

/-- `FastWS.manage` (application.py lines 97-107), one session from the
registry's point of view.
* `_auth` raises → the exception propagates before `Client(ws)` runs: no
  client is created, the registry is untouched.
* `_auth` returns `False` → `return`: no client is created, registry untouched.
* `_auth` returns `True` → `Client(ws)` is created (`fresh`, a fresh uuid)
  and `_connect`ed; then `try: yield ... except Exception: log` and, on
  every resumption of the generator — normal end, `Exception` thrown in,
  `BaseException` thrown in — the `finally` block runs `_disconnect`. -/
def manageModel (reg : List Client) (auth : AuthOutcome) (fresh : Client)
    (body : BodyOutcome) : ManageResult :=
  match auth with
  | .raised => { registry := reg, created := false, propagated := true }
  | .denied => { registry := reg, created := false, propagated := false }
  | .granted =>
    let reg1 := connectReg reg fresh
    let reg2 := disconnectReg reg1 fresh.uid
    { registry := reg2
      created := true
      propagated := (body = BodyOutcome.cancelled) }

/-! ## Session deadlines (`FastWS.serve`, application.py lines 139-153)

`serve` wraps the receive loop in two nested `asyncio.timeout` context
managers: the heartbeat one entered with `heartbeat_interval` and kept in
`heartbeat_cm`, and the lifespan one entered with `max_connection_lifespan`.
`asyncio.timeout(None)` never fires; `asyncio.timeout(d)` fires at
`entry_time + d`.  After each received message, when `heartbeat_interval`
is configured, `heartbeat_cm.reschedule(now + heartbeat_interval)` moves
only the heartbeat deadline; the lifespan deadline is never touched.  A
fired deadline raises `TimeoutError`, caught at line 152 and re-raised by
`handle_exception` — the session terminates with the timeout failure.

The model is a discrete-time abstraction: inbound frames are their arrival
times, processing a frame is instantaneous, and every frame that arrives is
assumed to parse and dispatch successfully (the claim quantifies over
successfully processed frames). -/

/-- Which of the two deadline clocks fired. -/
inductive TCause where
  | heartbeat
  | lifespan
deriving DecidableEq, Repr

/-- Session outcome of the modelled `serve` loop: it either blocks forever
waiting for the next frame (both clocks disabled), or a deadline fires at
time `t` and the session terminates with a `TimeoutError`. -/
inductive ServeOutcome where
  | blocksForever
  | timedOut (t : Nat) (c : TCause)
deriving DecidableEq, Repr

/-- Minimum of two optional deadlines, `Option.none` meaning "no deadline". -/
def minDl : Option Nat → Option Nat → Option Nat
  | Option.none, b => b
  | some a, Option.none => some a
  | some a, some b => some (min a b)

/-- Which clock a firing at `minDl hbDl lifeDl` is attributed to: the
heartbeat clock when its deadline is the earlier one (ties are attributed to
the heartbeat clock; the claim does not distinguish ties). -/
def fireCause (hbDl lifeDl : Option Nat) : TCause :=
  match hbDl, lifeDl with
  | Option.none, _ => TCause.lifespan
  | some _, Option.none => TCause.heartbeat
  | some a, some b => if a ≤ b then TCause.heartbeat else TCause.lifespan

/-- The receive loop of `serve` with explicit deadline state: `hb` is the
configured heartbeat interval, `hbDl`/`lifeDl` the current deadline of each
clock.  Waiting for the next frame, the earlier active deadline fires if it
precedes the frame's arrival; a processed frame at time `f` reschedules the
heartbeat deadline to `f + hb` (when configured) and leaves the lifespan
deadline unchanged.  A frame arriving exactly at the deadline is processed
(the boundary convention does not affect the claims). -/
def serveLoop (hb : Option Nat) (hbDl lifeDl : Option Nat) :
    List Nat → ServeOutcome
  | [] =>
    match minDl hbDl lifeDl with
    | Option.none => ServeOutcome.blocksForever
    | some d => ServeOutcome.timedOut d (fireCause hbDl lifeDl)
  | f :: rest =>
    match minDl hbDl lifeDl with
    | Option.none => serveLoop hb (hb.map (f + ·)) lifeDl rest
    | some d =>
      if f ≤ d then serveLoop hb (hb.map (f + ·)) lifeDl rest
      else ServeOutcome.timedOut d (fireCause hbDl lifeDl)

/-- `FastWS.serve` for a session starting at `start` with configured
`heartbeat_interval = hb` and `max_connection_lifespan = life`, receiving
frames at the (ascending) times `frames`: both `asyncio.timeout` context
managers are entered at `start`. -/
def serveModel (hb life : Option Nat) (start : Nat) (frames : List Nat) :
    ServeOutcome :=
  serveLoop hb (hb.map (start + ·)) (life.map (start + ·)) frames

/-- The frames all arrive in time: each frame precedes (or meets) the
deadline that is active when it is awaited.  Mirrors the loop's own deadline
evolution, so it is exactly "every inbound frame is successfully processed". -/
def allOnTime (hb : Option Nat) (hbDl lifeDl : Option Nat) : List Nat → Prop
  | [] => True
  | f :: rest =>
    (match minDl hbDl lifeDl with
     | Option.none => True
     | some d => f ≤ d) ∧ allOnTime hb (hb.map (f + ·)) lifeDl rest

instance (hb hbDl lifeDl : Option Nat) (frames : List Nat) :
    Decidable (allOnTime hb hbDl lifeDl frames) := by
  induction frames generalizing hbDl with
  | nil => exact isTrue trivial
  | cons f rest ih =>
    simp only [allOnTime]
    have h1 : Decidable
        (match minDl hbDl lifeDl with
         | Option.none => True
         | some d => f ≤ d) := by
      cases minDl hbDl lifeDl <;> infer_instance
    exact @instDecidableAnd _ _ h1 (ih _)

/-! ## Concrete fixtures from the repository's example application
(src/tests/example_app/), used as witnesses and counterexample inputs. -/

/-- `application_ping` (tests/example_app/service.py): `def application_ping():
return` — no parameters, no return annotation, returns `None`. -/
def applicationPingMeta : HandlerMeta :=
  { params := [], responseModel := Option.none, run := fun _ => .ok Val.none }

/-- A SEND handler with a declared result type and no parameters (the shape of
`recv_client` in tests/example.py, or of `subscribe_to_topic` with its context
parameters elided): the invocation succeeds and returns a value. -/
def echoMeta : HandlerMeta :=
  { params := [], responseModel := some "EchoResponse",
    run := fun _ => .ok (Val.str "echoed") }

/-- `subscribe_to_topic` (tests/example_app/feature_0/subscribe.py): parameters
`payload` (a `BaseModel` annotation, validated from the envelope payload),
`client` and `app` (context-bound); return annotation `SubscriptionResponse`. -/
def subscribeMeta : HandlerMeta :=
  { params :=
      [ { name := "payload", isModelAnnot := true,
          validate := fun p => .ok (p.getD Val.none) }
      , { name := "client", isModelAnnot := false,
          validate := fun _ => .ok Val.none }
      , { name := "app", isModelAnnot := false,
          validate := fun _ => .ok Val.none } ]
    responseModel := some "SubscriptionResponse"
    run := fun _ => .ok (Val.str "subscription-response") }

/-- The broker table after `@service.send("ping", reply="pong")`
(tests/example_app/service.py) on a fresh broker, via the registration path. -/
def pingRouter? : Except PyErr OperationRouter :=
  OperationRouter.addRoute {} "ping" applicationPingMeta Method.SEND (some "pong")

/-- The `Operation` that registration produces for the ping route. -/
def pingOp : Operation :=
  { operation := "ping"
    method := Method.SEND
    hmeta := applicationPingMeta
    reply_operation := some "pong"
    payloadDescr := { litType := "ping", withPayload := false }
    replyPayloadDescr := { litType := "pong", withPayload := false } }

/-- The ping table as a plain value. -/
def pingRouter : OperationRouter := { routes := [pingOp] }

/-- The registration path produces exactly `pingRouter`. -/
theorem pingRouter_eq : pingRouter? = .ok pingRouter := rfl

/-- A fresh broker table with one SEND route `echo` with declared result type
and reply-operation `echo.reply`. -/
def echoRouter? : Except PyErr OperationRouter :=
  OperationRouter.addRoute {} "echo" echoMeta Method.SEND (some "echo.reply")

/-- The `feature_1` router (tests/example_app/feature_1/ping.py): prefix
`feature_1.`, one route `@router.send("ping", reply="pong")`. -/
def feature1Router? : Except PyErr OperationRouter :=
  OperationRouter.addRoute { prefixStr := "feature_1." } "ping"
    applicationPingMeta Method.SEND (some "pong")

/-- The `feature_0` router (tests/example_app/feature_0/subscribe.py): prefix
`feature_0.`, route `@router.send("subscribe", reply="subscribe.response")`
with a declared result type (only this route is modelled; the `unsubscribe`
route plays no role in the claims). -/
def feature0Router? : Except PyErr OperationRouter :=
  OperationRouter.addRoute { prefixStr := "feature_0." } "subscribe"
    subscribeMeta Method.SEND (some "subscribe.response")

/-- `service.include_router(ping.router)` (tests/example_app/service.py):
merging the feature_1 router into a fresh broker table with prefix `""`. -/
def merged1? : Except PyErr OperationRouter := do
  let r1 ← feature1Router?
  OperationRouter.includeRouter {} r1 ""

/-- `service.include_router(subscribe.router)`: merging the feature_0 router
into a fresh broker table with prefix `""`. -/
def merged0? : Except PyErr OperationRouter := do
  let r0 ← feature0Router?
  OperationRouter.includeRouter {} r0 ""

/-- The `(operation, reply_operation)` pairs of a table, in order. -/
def routesView (r : OperationRouter) : List (String × Option String) :=
  r.routes.map (fun op => (op.operation, op.reply_operation))

/-- Registry fixture: subscriber of `news` whose transport is dead. -/
def clientA : Client := { uid := "A", topics := {"news"}, sendOk := false }

/-- Registry fixture: healthy subscriber of `news`. -/
def clientB : Client := { uid := "B", topics := {"news"}, sendOk := true }

/-- Registry fixture: healthy non-subscriber (subscribed to `weather` only). -/
def clientC : Client := { uid := "C", topics := {"weather"}, sendOk := true }

/-! ## Helper lemmas -/

/-- `Operation.__init__` never assigns an attribute named `response_payload`,
so the lookup fails for every route. -/
theorem Operation.getMsgAttr_response (op : Operation) :
    op.getMsgAttr "response_payload" = Option.none := rfl

/-- On the code as written, no dispatch ever returns a reply Envelope: the
only exit of `Broker.__call__` that could produce one first reads the
never-assigned `response_payload` attribute and raises. -/
theorem brokerCall_never_replies (r : OperationRouter) (msg : Message)
    (m : Method) (ctx : List (String × Val)) (rep : Message) :
    (brokerCall r msg m ctx).1 ≠ .ok (some rep) := by
  unfold brokerCall
  cases hM : matchRoute r msg.type m with
  | error e => simp
  | ok route =>
    cases hC : route.convertParams msg ctx with
    | error e => simp [hC]
    | ok values =>
      cases hR : route.hmeta.run values with
      | error e => simp [hC, hR]
      | ok result => simp [hC, hR, Operation.getMsgAttr_response]

/-! ## Claim theorems -/

/-- C1: the claim says a route with a declared result type and a successful
handler invocation yields a reply Envelope whose `type` is the configured
reply-operation id.  On the code, dispatching the envelope of type `echo` to
the SEND route `echo` (declared result type, reply-operation `echo.reply`)
invokes the handler (the invocation log is `[echo]`), the handler succeeds,
and dispatch then raises `AttributeError` reading the never-assigned
`response_payload` attribute; no reply Envelope is returned at all (and the
dict the source builds for validation uses the incoming `message.type`, not
the reply-operation id).  The repository's own test
(tests/test_example_app.py) expects the reply `type` to be the
reply-operation id, so the code contradicts its own test suite. -/
theorem C1_dispatch_raises_attribute_error :
    echoRouter?.map (fun r => brokerCall r { type := "echo" } Method.SEND [])
      = .ok (.error (PyErr.attributeError "response_payload"), ["echo"]) := rfl

/-- C2: the claim says merging prefixes both the operation id and the
reply-operation id and preserves the configured reply across the merge.  On
the code, `include_router` forwards no `reply_operation`:
merging the feature_1 router (prefix `feature_1.`, route `ping` with reply
`pong`) into a fresh parent yields the single route
`(feature_1.ping, no reply)` — the sub-route's reply id is dropped, not
prefixed into `feature_1.pong`; and merging the feature_0 router, whose
route declares a result type, aborts with the reply-required
`AssertionError` from `Operation.__init__`, so the example application's own
table cannot even be composed.  The repository's test expects replies typed
`feature_1.pong` and `feature_0.subscribe.response`, so the code contradicts
its own test suite. -/
theorem C2_include_router_drops_reply :
    merged1?.map routesView = .ok [("feature_1.ping", Option.none)] ∧
    errOf merged0? = some PyErr.assertionReplyRequired :=
  ⟨rfl, rfl⟩

/-- C3 counterexample: the example route SEND `ping` is registered with no
declared result type (and reply-operation `pong`); the claim says dispatch
returns `None` for it.  It does not: dispatching the envelope of type `ping`
yields an `AttributeError`, not `None`. -/
theorem C3_counterexample :
    pingRouter?.map (fun r => (brokerCall r { type := "ping" } Method.SEND []).1)
      ≠ .ok (.ok Option.none) := by
  have hval :
      pingRouter?.map (fun r => (brokerCall r { type := "ping" } Method.SEND []).1)
        = .ok (.error (PyErr.attributeError "response_payload")) := rfl
  rw [hval]
  simp

/-- C3 amended: for every registered route whose handler declares no result
type and every envelope resolving to it, when parameter binding and the
handler invocation succeed, dispatch does not return `None`: reply
construction is attempted unconditionally and raises `AttributeError` on the
never-assigned `response_payload` attribute, so no reply Envelope is
constructed and no `None` is returned either. -/
theorem C3_no_result_dispatch_raises (r : OperationRouter) (msg : Message)
    (m : Method) (ctx : List (String × Val)) (route : Operation)
    (values : List (String × Val)) (result : Val)
    (hm : matchRoute r msg.type m = .ok route)
    (_hnores : route.hmeta.responseModel = Option.none)
    (hc : route.convertParams msg ctx = .ok values)
    (hr : route.hmeta.run values = .ok result) :
    brokerCall r msg m ctx
      = (.error (PyErr.attributeError "response_payload"), [route.operation]) := by
  unfold brokerCall
  simp only [hm, hc, hr, Operation.getMsgAttr_response]

/-- C3 witness: the amended behaviour evaluated at the ping route. -/
theorem C3_witness :
    brokerCall pingRouter { type := "ping" } Method.SEND []
      = (.error (PyErr.attributeError "response_payload"), ["ping"]) :=
  C3_no_result_dispatch_raises pingRouter { type := "ping" } Method.SEND []
    pingOp [] Val.none rfl rfl rfl rfl

/-- C4 counterexample: the claim says every SEND route registered without a
reply-operation id can be registered, including handlers that declare a
result type.  Registration of such a handler fails: `Operation.__init__`
raises its reply-required `AssertionError` (routing.py lines 65-68). -/
theorem C4_counterexample :
    errOf (Operation.init "echo" echoMeta Method.SEND Option.none)
      = some PyErr.assertionReplyRequired := rfl

/-- C4 amended: a SEND route registered without a reply-operation id can be
registered precisely when its handler declares no result type — a declared
result type makes registration fail with the reply-required assertion — its
registered `reply_operation` is `None`, and dispatch never returns a reply
Envelope (on this code no dispatch does: the reply-construction step always
raises before producing one). -/
theorem C4_send_without_reply (op : String) (h : HandlerMeta)
    (r : OperationRouter) (msg : Message) (m : Method)
    (ctx : List (String × Val)) :
    (h.responseModel = Option.none →
      ∃ route, Operation.init op h Method.SEND Option.none = .ok route ∧
        route.reply_operation = Option.none) ∧
    (h.responseModel ≠ Option.none →
      Operation.init op h Method.SEND Option.none
        = .error PyErr.assertionReplyRequired) ∧
    (∀ rep : Message, (brokerCall r msg m ctx).1 ≠ .ok (some rep)) := by
  refine ⟨?_, ?_, ?_⟩
  · intro hn
    simp only [Operation.init, hn]
    exact ⟨_, rfl, rfl⟩
  · intro hn
    simp [Operation.init, hn]
  · exact fun rep => brokerCall_never_replies r msg m ctx rep

/-- C4 witness: the amended behaviour at the ping handler (no declared result
type): it registers with `reply_operation = None`, and the ping dispatch
yields no reply Envelope. -/
theorem C4_witness :
    (∃ route, Operation.init "ping" applicationPingMeta Method.SEND Option.none
        = .ok route ∧ route.reply_operation = Option.none) ∧
    (brokerCall pingRouter { type := "ping" } Method.SEND []).1
      ≠ .ok (some { type := "pong" }) :=
  ⟨(C4_send_without_reply "ping" applicationPingMeta pingRouter
      { type := "ping" } Method.SEND []).1 rfl,
   (C4_send_without_reply "ping" applicationPingMeta pingRouter
      { type := "ping" } Method.SEND []).2.2 { type := "pong" }⟩

/-- C5: registering an operation id — or a supplied reply-operation id —
equal to any already-registered route's operation id or reply-operation id
fails with the duplicate-operation assertion (the spec's
`DuplicateOperation`).  Both asserts run before the table is touched, so the
error return carries no new table: the existing registration is never
overwritten and the program fails fast at registration time. -/
theorem C5_duplicate_rejected (r : OperationRouter) (operation : String)
    (h : HandlerMeta) (m : Method) (reply : Option String)
    (hdup : operation ∈ r.existingOps ∨
      ∃ ro, reply = some ro ∧ ro ∈ r.existingOps) :
    errOf (r.addRoute operation h m reply) = some PyErr.duplicateOperation := by
  by_cases hop : operation ∈ r.existingOps
  · simp [OperationRouter.addRoute, hop, errOf]
  · rcases hdup with hop' | ⟨ro, hrfl, hro⟩
    · exact absurd hop' hop
    · subst hrfl
      simp [OperationRouter.addRoute, hop, hro, errOf]

/-- C5 witness: on the ping table (operation `ping`, reply-operation `pong`),
registering a new RECEIVE route under the id `pong` collides with the
existing route's reply-operation id and is rejected. -/
theorem C5_witness :
    errOf (pingRouter.addRoute "pong" applicationPingMeta Method.RECEIVE
        Option.none) = some PyErr.duplicateOperation :=
  C5_duplicate_rejected pingRouter "pong" applicationPingMeta Method.RECEIVE
    Option.none (Or.inl (by decide))

/-- C6: when no registered route equals the envelope's `(type, direction)`
pair — matching is full-string equality on the namespaced id — dispatch
fails with `NoMatchingOperation` and the invocation log is empty: no handler
was invoked. -/
theorem C6_unmatched_dispatch (r : OperationRouter) (msg : Message)
    (m : Method) (ctx : List (String × Val))
    (hno : ∀ route ∈ r.routes,
      ¬(route.operation = msg.type ∧ route.method = m)) :
    brokerCall r msg m ctx = (.error PyErr.noMatchingOperation, []) := by
  have hfind : r.routes.find? (fun rt => rt.matchesOp msg.type m)
      = Option.none := by
    apply List.find?_eq_none.mpr
    intro x hx
    simp only [Operation.matchesOp, decide_eq_true_eq]
    exact hno x hx
  have hm : matchRoute r msg.type m = .error .noMatchingOperation := by
    unfold matchRoute
    rw [hfind]
  unfold brokerCall
  simp only [hm]

/-- C6 witness: an envelope of type `feature_1.ping` against a table whose
only route is `(ping, SEND)`: the suffix relation between the ids is no
match — dispatch fails with `NoMatchingOperation` and invokes nothing. -/
theorem C6_witness :
    brokerCall pingRouter { type := "feature_1.ping" } Method.SEND []
      = (.error PyErr.noMatchingOperation, []) :=
  C6_unmatched_dispatch pingRouter { type := "feature_1.ping" } Method.SEND []
    (by decide)

/-- Every delivered uid comes from a client of the attempted list. -/
theorem deliverSeq_mem (l : List Client) (uid : String)
    (h : uid ∈ (deliverSeq l).1) : ∃ c ∈ l, c.uid = uid := by
  induction l with
  | nil => simp [deliverSeq] at h
  | cons c rest ih =>
    by_cases hs : c.sendOk
    · simp only [deliverSeq, hs, if_true, List.mem_cons] at h
      rcases h with h | h
      · exact ⟨c, by simp, h.symm⟩
      · rcases ih h with ⟨c', hc', hu⟩
        exact ⟨c', by simp [hc'], hu⟩
    · simp [deliverSeq, hs] at h

/-- When every attempted transport is healthy, every attempted client is
delivered to, in order, and the group succeeds. -/
theorem deliverSeq_all_ok (l : List Client) (h : ∀ c ∈ l, c.sendOk = true) :
    deliverSeq l = (l.map Client.uid, true) := by
  induction l with
  | nil => rfl
  | cons c rest ih =>
    have hc := h c (by simp)
    have hrest := ih (fun x hx => h x (List.mem_cons_of_mem _ hx))
    simp [deliverSeq, hc, hrest]

/-- A single dead transport among the attempted clients fails the group. -/
theorem deliverSeq_fail (l : List Client)
    (h : ∃ c ∈ l, c.sendOk = false) : (deliverSeq l).2 = false := by
  induction l with
  | nil => simp at h
  | cons c rest ih =>
    by_cases hs : c.sendOk
    · rcases h with ⟨c', hc', hfail⟩
      rcases List.mem_cons.mp hc' with rfl | hmem
      · rw [hs] at hfail
        exact absurd hfail (by simp)
      · simp only [deliverSeq, hs, if_true]
        exact ih ⟨c', hmem, hfail⟩
    · simp [deliverSeq, hs]

/-- C7 counterexample: registry with subscribers A (dead transport) and B and
non-subscriber C.  The claim says the broadcast still delivers to B and that
the per-recipient failure is not propagated.  On the code, A's failing send
makes the `TaskGroup` cancel B's still-pending delivery (nobody receives on
this schedule) and `broadcast` itself propagates the failure. -/
theorem C7_counterexample :
    broadcastModel [clientA, clientB, clientC] "news"
      = ([], .error PyErr.deliveryFailure) := rfl

/-- C7 amended: `broadcast` delivers only to clients subscribed to the topic
(a non-subscriber never receives); when every subscriber's transport is
healthy it delivers to all of them and returns normally; but deliveries are
not isolated: any subscriber with a dead transport makes the broadcast call
itself fail (the `TaskGroup` re-raises the delivery failure, cancelling
still-pending sibling deliveries), so the other subscribers are not
guaranteed to have received the message. -/
theorem C7_broadcast (reg : List Client) (topic : String) :
    (∀ uid ∈ (broadcastModel reg topic).1,
      ∃ c ∈ reg, c.uid = uid ∧ topic ∈ c.topics) ∧
    ((∀ c ∈ reg, topic ∈ c.topics → c.sendOk = true) →
      broadcastModel reg topic
        = ((reg.filter (fun c => decide (topic ∈ c.topics))).map Client.uid,
            .ok ())) ∧
    ((∃ c ∈ reg, topic ∈ c.topics ∧ c.sendOk = false) →
      (broadcastModel reg topic).2 = .error PyErr.deliveryFailure) := by
  refine ⟨?_, ?_, ?_⟩
  · intro uid hu
    simp only [broadcastModel] at hu
    rcases deliverSeq_mem _ uid hu with ⟨c, hcsel, huid⟩
    have hmem := List.mem_filter.mp hcsel
    exact ⟨c, hmem.1, huid, by simpa using hmem.2⟩
  · intro hok
    have hall : ∀ c ∈ reg.filter (fun c => decide (topic ∈ c.topics)),
        c.sendOk = true := by
      intro c hc
      have hmem := List.mem_filter.mp hc
      exact hok c hmem.1 (by simpa using hmem.2)
    simp [broadcastModel, deliverSeq_all_ok _ hall]
  · rintro ⟨c, hc, htop, hfail⟩
    have hf : (deliverSeq (reg.filter (fun c => decide (topic ∈ c.topics)))).2
        = false :=
      deliverSeq_fail _ ⟨c, List.mem_filter.mpr ⟨hc, by simpa using htop⟩, hfail⟩
    simp [broadcastModel, hf]

/-- C7 witness: with only the healthy subscriber B and the non-subscriber C
registered, the broadcast delivers exactly to B and returns normally. -/
theorem C7_witness :
    broadcastModel [clientB, clientC] "news" = (["B"], .ok ()) :=
  (C7_broadcast [clientB, clientC] "news").2.1 (by decide)

/-- Looking up a uid in a registry from which that uid's entries were just
filtered out finds nothing. -/
theorem find?_filter_ne_uid (l : List Client) (u : String) :
    (l.filter (fun x => x.uid ≠ u)).find? (fun c => c.uid = u)
      = Option.none := by
  induction l with
  | nil => rfl
  | cons c rest ih =>
    by_cases hc : c.uid = u
    · simp [List.filter_cons, hc, ih]
    · simp [List.filter_cons, List.find?_cons, hc, ih]

/-- C8: the registry never leaks a session.  A `Client` is created and
registered exactly when authentication grants the session; when
authentication returns `False` or raises, the registry is untouched and no
client object exists; and when a client was registered, every exit path of
the session body — normal close, `Exception` thrown into the generator,
cancellation — runs the `finally` block, so the final registry no longer
maps the session's connection id. -/
theorem C8_registry_no_leak (reg : List Client) (auth : AuthOutcome)
    (fresh : Client) (body : BodyOutcome) :
    ((manageModel reg auth fresh body).created = true
        ↔ auth = AuthOutcome.granted) ∧
    (auth ≠ AuthOutcome.granted →
      manageModel reg auth fresh body
        = { registry := reg, created := false,
            propagated := (auth = AuthOutcome.raised) }) ∧
    (auth = AuthOutcome.granted →
      (manageModel reg auth fresh body).registry.find?
          (fun c => c.uid = fresh.uid) = Option.none) := by
  cases auth with
  | granted =>
    refine ⟨by simp [manageModel], by simp, ?_⟩
    intro _
    simp only [manageModel, disconnectReg]
    exact find?_filter_ne_uid (connectReg reg fresh) fresh.uid
  | denied =>
    exact ⟨by simp [manageModel], by intro _; simp [manageModel], by simp⟩
  | raised =>
    exact ⟨by simp [manageModel], by intro _; simp [manageModel], by simp⟩

/-- C8 witness: a granted session whose body ends in an application error
still leaves the registry without the session's connection id. -/
theorem C8_witness :
    (manageModel [clientB] AuthOutcome.granted { uid := "c0" }
        BodyOutcome.appError).registry.find?
      (fun c => c.uid = Client.uid { uid := "c0" }) = Option.none :=
  (C8_registry_no_leak [clientB] AuthOutcome.granted { uid := "c0" }
    BodyOutcome.appError).2.2 rfl

/-- The heartbeat deadline left after the whole frame list is processed: the
initial deadline when no frame arrived, else `last frame + hb`. -/
def lastHbDl (hb : Option Nat) (hbDl0 : Option Nat) (frames : List Nat) :
    Option Nat :=
  match frames.getLast? with
  | Option.none => hbDl0
  | some f => hb.map (f + ·)

theorem lastHbDl_cons (hb hbDl0 : Option Nat) (f : Nat) (rest : List Nat) :
    lastHbDl hb hbDl0 (f :: rest) = lastHbDl hb (hb.map (f + ·)) rest := by
  cases rest with
  | nil => rfl
  | cons g tail =>
    simp only [lastHbDl, List.getLast?_cons_cons]
    cases htail : (g :: tail).getLast? with
    | none =>
      rw [List.getLast?_eq_none_iff] at htail
      exact absurd htail (by simp)
    | some x => rfl

/-- Characterisation of the receive loop under timely traffic: the loop's
final fate depends on the lifespan deadline exactly as entered (never reset)
and, for the heartbeat clock, only on the last processed frame (each frame
reset it to its own arrival time plus the interval). -/
theorem serveLoop_char (hb lifeDl : Option Nat) (frames : List Nat) :
    ∀ hbDl0, allOnTime hb hbDl0 lifeDl frames →
      serveLoop hb hbDl0 lifeDl frames
        = (match minDl (lastHbDl hb hbDl0 frames) lifeDl with
           | Option.none => ServeOutcome.blocksForever
           | some d => ServeOutcome.timedOut d
               (fireCause (lastHbDl hb hbDl0 frames) lifeDl)) := by
  induction frames with
  | nil => intro hbDl0 _; rfl
  | cons f rest ih =>
    intro hbDl0 h
    obtain ⟨h1, h2⟩ := h
    rw [lastHbDl_cons]
    cases hmin : minDl hbDl0 lifeDl with
    | none =>
      simp only [serveLoop, hmin]
      exact ih _ h2
    | some d =>
      simp only [hmin] at h1
      simp only [serveLoop, hmin]
      rw [if_pos h1]
      exact ih _ h2

/-- C9: with the heartbeat interval `hb` and maximum lifespan `life` both
optional, a session starting at `start` whose inbound frames all arrive in
time ends as follows: the lifespan deadline stays `start + life` (no frame
ever resets it), the heartbeat deadline is whatever the last successfully
processed frame reset it to (`last frame + hb`), a clock whose configured
value is absent never fires, the session blocks on the next frame forever
when both are absent, and otherwise the earlier of the two deadlines fires,
terminating the session with the timeout failure attributed to that clock. -/
theorem C9_deadline_discipline (hb life : Option Nat) (start : Nat)
    (frames : List Nat)
    (h : allOnTime hb (hb.map (start + ·)) (life.map (start + ·)) frames) :
    serveModel hb life start frames
      = (match minDl (lastHbDl hb (hb.map (start + ·)) frames)
              (life.map (start + ·)) with
         | Option.none => ServeOutcome.blocksForever
         | some d => ServeOutcome.timedOut d
             (fireCause (lastHbDl hb (hb.map (start + ·)) frames)
               (life.map (start + ·)))) :=
  serveLoop_char hb (life.map (start + ·)) frames (hb.map (start + ·)) h

/-- C9 witness: (i) heartbeat 10, lifespan 100, frames at 5 and 12: the idle
clock, reset by the frame at 12, fires first at 22; (ii) no heartbeat
configured, lifespan 50, steady traffic: the lifespan clock fires at 50
regardless of the traffic; (iii) both clocks absent: the loop blocks
forever. -/
theorem C9_witness :
    serveModel (some 10) (some 100) 0 [5, 12]
        = ServeOutcome.timedOut 22 TCause.heartbeat ∧
    serveModel Option.none (some 50) 0 [10, 20, 30]
        = ServeOutcome.timedOut 50 TCause.lifespan ∧
    serveModel Option.none Option.none 0 [1, 2, 3]
        = ServeOutcome.blocksForever :=
  ⟨C9_deadline_discipline (some 10) (some 100) 0 [5, 12] (by decide),
   C9_deadline_discipline Option.none (some 50) 0 [10, 20, 30] (by decide),
   C9_deadline_discipline Option.none Option.none 0 [1, 2, 3] (by decide)⟩

/-- C10: `subscribe` and `unsubscribe` are idempotent and total:
subscribing twice equals subscribing once, unsubscribing twice equals
unsubscribing once, unsubscribing a topic the client is not subscribed to is
a no-op (and never fails — both operations are total functions, the
membership guards making the underlying `set` operations safe), and neither
operation changes any client state other than the topic set: the identity
and the transport are untouched. -/
theorem C10_subscription_algebra (c : Client) (t : String) :
    (c.subscribe t).subscribe t = c.subscribe t ∧
    (c.unsubscribe t).unsubscribe t = c.unsubscribe t ∧
    (t ∉ c.topics → c.unsubscribe t = c) ∧
    ((c.subscribe t).uid = c.uid ∧ (c.subscribe t).sendOk = c.sendOk) ∧
    ((c.unsubscribe t).uid = c.uid ∧ (c.unsubscribe t).sendOk = c.sendOk) := by
  refine ⟨?_, ?_, ?_, ?_, ?_⟩
  · by_cases h : t ∈ c.topics <;> simp [Client.subscribe, h]
  · by_cases h : t ∈ c.topics <;>
      simp [Client.unsubscribe, h, Finset.not_mem_erase]
  · intro h
    simp [Client.unsubscribe, h]
  · by_cases h : t ∈ c.topics <;> simp [Client.subscribe, h]
  · by_cases h : t ∈ c.topics <;> simp [Client.unsubscribe, h]

/-- C10 witness: unsubscribing B from a topic it never subscribed to leaves
the client exactly as it was. -/
theorem C10_witness : clientB.unsubscribe "sports" = clientB :=
  (C10_subscription_algebra clientB "sports").2.2.1 (by decide)

end FastWS
